import Mathlib

/-!
Shallow embedding of the profile field validation and update-submission
protocol of the Customize Profile page (`src/unnamed/part_000`): the zod
`profileSchema`, the link-cleaning preprocessing, and the `handleSaveChanges`
save flow.

URL syntax checking is performed in the source by zod's `.url()` check, which
delegates to the platform URL parser; the embedding therefore takes the URL
validity test as an explicit parameter `u : String → Bool`.
-/

set_option maxRecDepth 8192

namespace Zylo

/-- The draft profile: the form state fields passed to `profileSchema.parse`
inside `handleSaveChanges` (`name`, `bio`, `background`, `avatar`,
`borderColor`, `links`). `links` is the insertion-ordered key/value mapping
held by the `links` state object. -/
structure ProfileDraft where
  name : String
  bio : String
  background : String
  avatar : String
  borderColor : String
  links : List (String × String)
  deriving Repr, DecidableEq

/-- Message of the `.min(3, …)` and `.max(15, …)` checks on `name`. -/
def nameLengthMessage : String := "Name must be between 3 and 15 characters long"

/-- Message of the `.nonempty(…)` check on `name` (zod implements
`.nonempty` as a min-length-1 check). -/
def nameEmptyMessage : String := "Name cannot be empty"

/-- Message of the `.max(200, …)` check on `bio`. -/
def bioLengthMessage : String := "Bio must be 200 characters or fewer"

/-- Message of the `.url(…)` check on `background`. -/
def backgroundUrlMessage : String := "Invalid background URL"

/-- Message of the `.nonempty(…)` check on `background`. -/
def backgroundEmptyMessage : String := "Background URL cannot be empty"

/-- Message of the `.url(…)` check on `avatar`. -/
def avatarUrlMessage : String := "Invalid avatar URL"

/-- Message of the `.nonempty(…)` check on `avatar`. -/
def avatarEmptyMessage : String := "Avatar URL cannot be empty"

/-- Message of the `.url(…)` check on each `links` value. -/
def linkUrlMessage : String := "Invalid URL"

/-- Issues produced by the `name` field schema
`z.string().min(3,…).max(15,…).nonempty(…)`. zod runs every check of a string
schema in declaration order and records one issue per failed check. -/
def nameIssues (name : String) : List String :=
  (if name.length < 3 then [nameLengthMessage] else []) ++
  (if 15 < name.length then [nameLengthMessage] else []) ++
  (if name.length < 1 then [nameEmptyMessage] else [])

/-- Issues produced by the `bio` field schema `z.string().max(200,…).optional()`
(the component always passes a string). -/
def bioIssues (bio : String) : List String :=
  if 200 < bio.length then [bioLengthMessage] else []

/-- Issues produced by the `background` field schema
`z.string().url(…).nonempty(…)`. -/
def backgroundIssues (u : String → Bool) (background : String) : List String :=
  (if u background = false then [backgroundUrlMessage] else []) ++
  (if background.length < 1 then [backgroundEmptyMessage] else [])

/-- Issues produced by the `avatar` field schema
`z.string().url(…).nonempty(…)`. -/
def avatarIssues (u : String → Bool) (avatar : String) : List String :=
  (if u avatar = false then [avatarUrlMessage] else []) ++
  (if avatar.length < 1 then [avatarEmptyMessage] else [])

/-- Issues produced by the `links` field schema
`z.record(z.string().url("Invalid URL")).optional()`: one issue per value
failing the URL check, in key insertion order. -/
def linksIssues (u : String → Bool) (links : List (String × String)) : List String :=
  links.filterMap (fun kv => if u kv.2 = false then some linkUrlMessage else none)

/-- The list of issues of `profileSchema.parse` on a draft, in the order zod
records them: fields in the order declared in the object schema (`name`,
`bio`, `background`, `avatar`, `borderColor`, `links`), and within each field
the checks in declaration order. `borderColor` is `z.string().optional()`
with no checks. -/
def profileSchemaIssues (u : String → Bool) (d : ProfileDraft) : List String :=
  nameIssues d.name ++ bioIssues d.bio ++ backgroundIssues u d.background ++
    avatarIssues u d.avatar ++ linksIssues u d.links

/-- The link-cleaning loop of `handleSaveChanges`: delete every `links` entry
whose value is the empty string. -/
def cleanLinks (links : List (String × String)) : List (String × String) :=
  links.filter (fun kv => kv.2 ≠ "")

/-- The `validate` operation: clean the links, run `profileSchema.parse`, and
on failure report the single message `validationError.errors[0].message`
extracted by the catch block of `handleSaveChanges`. -/
def validate (u : String → Bool) (d : ProfileDraft) : Except String ProfileDraft :=
  match profileSchemaIssues u { d with links := cleanLinks d.links } with
  | [] => .ok { d with links := cleanLinks d.links }
  | m :: _ => .error m

/-- The JSON payload sent to the PUT `/api/updateUser` endpoint. -/
structure UpdatePayload where
  userId : String
  newName : String
  newImage : String
  newBio : Option String
  newBackgroundImage : String
  newBorderColor : String
  newLinks : List (String × String)
  deriving Repr, DecidableEq

/-- Behaviour of the update endpoint when a request reaches it: HTTP success
with a `message` body, non-success status with a `message` body, or a
transport failure (the `fetch`/`json` call throws). -/
inductive UpdateResponse where
  | ok (message : String)
  | httpError (message : String)
  | transportFailure
  deriving Repr, DecidableEq

/-- The message/error display state of the component. -/
structure SaveState where
  message : Option String
  error : Option String
  deriving Repr, DecidableEq

/-- Outcome of one run of the save flow: the final display state and the
request issued to the update endpoint, if any. -/
structure SaveOutcome where
  state : SaveState
  request : Option UpdatePayload
  deriving Repr, DecidableEq

/-- The request body built by `handleSaveChanges` from the (cleaned) draft:
`{ userId, newName, newImage, newBio (null when bio is empty),
newBackgroundImage, newBorderColor, newLinks }`. -/
def buildPayload (uid : String) (d : ProfileDraft) : UpdatePayload :=
  { userId := uid
    newName := d.name
    newImage := d.avatar
    newBio := if d.bio = "" then none else some d.bio
    newBackgroundImage := d.background
    newBorderColor := d.borderColor
    newLinks := d.links }

/-- One run of `handleSaveChanges`, starting from the prior display state:
clear message and error, short-circuit on a missing user id, clean the links
and validate, then submit and report the server's answer. A thrown
non-`ZodError` (transport failure) reports the generic message. -/
def handleSaveChanges (u : String → Bool) (userId : Option String)
    (d : ProfileDraft) (resp : UpdateResponse) (prior : SaveState) : SaveOutcome :=
  let s : SaveState := { prior with message := none, error := none }
  match userId with
  | none => { state := { s with error := some "User not authenticated" }, request := none }
  | some uid =>
    match validate u d with
    | .error m => { state := { s with error := some m }, request := none }
    | .ok cleaned =>
      match resp with
      | .ok msg =>
          { state := { s with message := some msg }
            request := some (buildPayload uid cleaned) }
      | .httpError msg =>
          { state := { s with error := some ("Error: " ++ msg) }
            request := some (buildPayload uid cleaned) }
      | .transportFailure =>
          { state := { s with error := some "An unexpected error occurred" }
            request := some (buildPayload uid cleaned) }

/-- The first violated constraint of a draft, written out as an ordered
if-chain over the cleaned draft in the order the schema declares its fields
and checks: name length 3–15, name non-empty (zod's min-length 1), bio length
at most 200, background URL syntax, background non-empty, avatar URL syntax,
avatar non-empty, every remaining link value a URL. Used to compare the
single reported `FieldError` against the declared constraint order. -/
def firstViolation (u : String → Bool) (d : ProfileDraft) : Option String :=
  if d.name.length < 3 ∨ 15 < d.name.length then some nameLengthMessage
  else if d.name.length < 1 then some nameEmptyMessage
  else if 200 < d.bio.length then some bioLengthMessage
  else if u d.background = false then some backgroundUrlMessage
  else if d.background.length < 1 then some backgroundEmptyMessage
  else if u d.avatar = false then some avatarUrlMessage
  else if d.avatar.length < 1 then some avatarEmptyMessage
  else if (cleanLinks d.links).all (fun kv => u kv.2) then none
  else some linkUrlMessage

theorem linksIssues_head (u : String → Bool) (l : List (String × String)) :
    (linksIssues u l).head? =
      if l.all (fun kv => u kv.2) then none else some linkUrlMessage := by
  induction l with
  | nil => simp [linksIssues]
  | cons kv t ih =>
    by_cases h : u kv.2 = false
    · simp [linksIssues, h]
    · simp only [Bool.not_eq_false] at h
      simp only [linksIssues, List.filterMap_cons, h, List.all_cons] at ih ⊢
      simpa using ih

/-- The head of the zod issue list is exactly the first violated constraint
of the if-chain, on any draft whose links are already cleaned. -/
theorem profileSchemaIssues_head (u : String → Bool) (d : ProfileDraft)
    (hl : cleanLinks d.links = d.links) :
    (profileSchemaIssues u d).head? = firstViolation u d := by
  unfold profileSchemaIssues firstViolation nameIssues bioIssues
    backgroundIssues avatarIssues
  rw [hl]
  by_cases h1 : d.name.length < 3
  · simp [h1]
  by_cases h2 : 15 < d.name.length
  · simp [h1, h2]
  have h3 : ¬ d.name.length < 1 := by omega
  by_cases h4 : 200 < d.bio.length
  · simp [h1, h2, h3, h4]
  by_cases h5 : u d.background = false
  · simp [h1, h2, h3, h4, h5]
  by_cases h6 : d.background.length < 1
  · simp [h1, h2, h3, h4, h5, h6]
  by_cases h7 : u d.avatar = false
  · simp [h1, h2, h3, h4, h5, h6, h7]
  by_cases h8 : d.avatar.length < 1
  · simp [h1, h2, h3, h4, h5, h6, h7, h8]
  simp [h1, h2, h3, h4, h5, h6, h7, h8, linksIssues_head]

theorem cleanLinks_idem (l : List (String × String)) :
    cleanLinks (cleanLinks l) = cleanLinks l := by
  unfold cleanLinks
  rw [List.filter_filter]
  simp

/-- `validate` resolves to the first violated constraint of the if-chain:
it succeeds exactly when no constraint is violated, and otherwise reports
the first violation. -/
theorem validate_eq (u : String → Bool) (d : ProfileDraft) :
    validate u d =
      match firstViolation u d with
      | none => .ok { d with links := cleanLinks d.links }
      | some m => .error m := by
  have hcl : cleanLinks (cleanLinks d.links) = cleanLinks d.links :=
    cleanLinks_idem d.links
  have h := profileSchemaIssues_head u { d with links := cleanLinks d.links } hcl
  have hfv : firstViolation u { d with links := cleanLinks d.links } =
      firstViolation u d := by
    unfold firstViolation
    dsimp only
    rw [hcl]
  rw [hfv] at h
  unfold validate
  cases hl : profileSchemaIssues u { d with links := cleanLinks d.links } with
  | nil =>
    rw [hl] at h
    simp only [List.head?_nil] at h
    rw [← h]
  | cons m t =>
    rw [hl] at h
    simp only [List.head?_cons] at h
    rw [← h]

theorem validate_error_iff (u : String → Bool) (d : ProfileDraft) (m : String) :
    validate u d = .error m ↔ firstViolation u d = some m := by
  rw [validate_eq]
  cases firstViolation u d <;> simp

theorem validate_ok_eq (u : String → Bool) (d d' : ProfileDraft)
    (h : validate u d = .ok d') : d' = { d with links := cleanLinks d.links } := by
  rw [validate_eq] at h
  cases hfv : firstViolation u d with
  | none =>
    rw [hfv] at h
    simpa using h.symm
  | some m =>
    rw [hfv] at h
    exact Except.noConfusion h

theorem validate_ok_of (u : String → Bool) (d : ProfileDraft)
    (h1 : 3 ≤ d.name.length) (h2 : d.name.length ≤ 15) (h3 : d.bio.length ≤ 200)
    (h4 : u d.background = true) (h5 : 1 ≤ d.background.length)
    (h6 : u d.avatar = true) (h7 : 1 ≤ d.avatar.length)
    (h8 : ∀ kv ∈ cleanLinks d.links, u kv.2 = true) :
    validate u d = .ok { d with links := cleanLinks d.links } := by
  have hfv : firstViolation u d = none := by
    unfold firstViolation
    have c1 : ¬ (d.name.length < 3 ∨ 15 < d.name.length) := by omega
    have c2 : ¬ d.name.length < 1 := by omega
    have c3 : ¬ 200 < d.bio.length := by omega
    have c5 : ¬ d.background.length < 1 := by omega
    have c7 : ¬ d.avatar.length < 1 := by omega
    have c8 : (cleanLinks d.links).all (fun kv => u kv.2) = true := by
      rw [List.all_eq_true]
      exact h8
    simp [c1, c2, c3, h4, c5, h6, c7, c8]
  rw [validate_eq, hfv]

/-- Inversion: when no constraint is violated, the bio bound holds and every
cleaned link value passes the URL test. -/
theorem firstViolation_none_inv (u : String → Bool) (d : ProfileDraft)
    (h : firstViolation u d = none) :
    d.bio.length ≤ 200 ∧ (cleanLinks d.links).all (fun kv => u kv.2) = true := by
  unfold firstViolation at h
  by_cases h1 : d.name.length < 3 ∨ 15 < d.name.length
  · rw [if_pos h1] at h; exact Option.noConfusion h
  rw [if_neg h1] at h
  by_cases h2 : d.name.length < 1
  · rw [if_pos h2] at h; exact Option.noConfusion h
  rw [if_neg h2] at h
  by_cases h3 : 200 < d.bio.length
  · rw [if_pos h3] at h; exact Option.noConfusion h
  rw [if_neg h3] at h
  by_cases h4 : u d.background = false
  · rw [if_pos h4] at h; exact Option.noConfusion h
  rw [if_neg h4] at h
  by_cases h5 : d.background.length < 1
  · rw [if_pos h5] at h; exact Option.noConfusion h
  rw [if_neg h5] at h
  by_cases h6 : u d.avatar = false
  · rw [if_pos h6] at h; exact Option.noConfusion h
  rw [if_neg h6] at h
  by_cases h7 : d.avatar.length < 1
  · rw [if_pos h7] at h; exact Option.noConfusion h
  rw [if_neg h7] at h
  by_cases h8 : (cleanLinks d.links).all (fun kv => u kv.2) = true
  · exact ⟨by omega, h8⟩
  · rw [if_neg h8] at h; exact Option.noConfusion h

/-- URL validity oracle for the concrete end-to-end runs: accepts exactly the
two image URLs used in the examples. -/
def uVal : String → Bool :=
  fun s => (s == "https://x.com/a.png") || (s == "https://x.com/b.png")

/-- The valid end-to-end draft: name "Alice", empty bio, valid image URLs,
and an empty-string website link. -/
def dAlice : ProfileDraft :=
  { name := "Alice", bio := "", background := "https://x.com/a.png",
    avatar := "https://x.com/b.png", borderColor := "", links := [("website", "")] }

/-- A draft with an empty name and every other field valid. -/
def dEmptyName : ProfileDraft := { dAlice with name := "", links := [] }

/-- A draft with a 201-character bio and an invalid (empty) name. -/
def dLongBio : ProfileDraft :=
  { dAlice with name := "", bio := String.mk (List.replicate 201 'a'), links := [] }

/-- A draft with a 201-character bio and a valid name. -/
def dLongBioGoodName : ProfileDraft := { dLongBio with name := "Alice" }

/-- The "Al" end-to-end draft: name of length 2, every other field valid. -/
def dAl : ProfileDraft := { dAlice with name := "Al", links := [] }

/-- A draft whose github link is a non-empty string that is not a URL, with
every other field valid. -/
def dBadLink : ProfileDraft := { dAlice with links := [("github", "not a url")] }

/-- C1 (counterexample): for a draft whose name is the empty string and whose
other fields are valid, the single reported error is the name-length message
produced by the `.min(3, …)` check, not the name-non-empty message — the
schema declares the name checks in the order min(3), max(15), nonempty, so
the length check fires first on an empty name. -/
theorem c1_empty_name_counterexample :
    validate uVal dEmptyName = .error "Name must be between 3 and 15 characters long" ∧
    ("Name must be between 3 and 15 characters long" : String) ≠ "Name cannot be empty" :=
  ⟨rfl, by decide⟩

/-- C1 (amended): for every draft violating one or more constraints,
`validate` reports exactly one FieldError, the first violated constraint in
the order the schema declares its fields and checks (name length 3–15, name
non-empty, bio length ≤ 200, background URL, background non-empty, avatar
URL, avatar non-empty, links URLs) — never a list of all violations; in
particular, for a draft whose name is the empty string the reported error is
the name-length violation. -/
theorem c1_single_error_is_first_declared_violation (u : String → Bool)
    (d : ProfileDraft) (m : String) :
    (validate u d = .error m ↔ firstViolation u d = some m) ∧
    (d.name = "" → validate u d = .error nameLengthMessage) := by
  refine ⟨validate_error_iff u d m, fun h => ?_⟩
  rw [validate_error_iff]
  unfold firstViolation
  have hlen : d.name.length < 3 := by
    rw [h]
    decide
  rw [if_pos (Or.inl hlen)]

/-- C1 witness: the amended theorem applied to the empty-name draft. -/
theorem c1_single_error_is_first_declared_violation_witness :
    dEmptyName.name = "" ∧ validate uVal dEmptyName = .error nameLengthMessage :=
  ⟨rfl, (c1_single_error_is_first_declared_violation uVal dEmptyName "").2 rfl⟩

/-- C2: with no authenticated user identifier, every run of the save flow
ends with the Unauthenticated error and issues no request to the update
endpoint; since the outcome is the same for every draft, every URL oracle
and every endpoint behaviour, the flow short-circuits before any schema
check runs. -/
theorem c2_unauthenticated_short_circuit (u : String → Bool) (d : ProfileDraft)
    (resp : UpdateResponse) (prior : SaveState) :
    handleSaveChanges u none d resp prior =
      { state := { message := none, error := some "User not authenticated" },
        request := none } := rfl

/-- C3 (counterexample): for the valid draft with an empty bio, the submitted
payload carries `newBio = null` (`none`), not the string "no bio". -/
theorem c3_no_bio_counterexample :
    ((handleSaveChanges uVal (some "user-1") dAlice (.ok "Profile updated")
        ⟨some "old message", some "old error"⟩).request).map UpdatePayload.newBio =
      some none ∧
    (some (some "no bio") : Option (Option String)) ≠ some none :=
  ⟨rfl, by decide⟩

/-- C3 (amended): for every valid draft whose bio is the empty string, the
bio is normalized to null (`none`) in the submitted payload. -/
theorem c3_empty_bio_submitted_as_null (u : String → Bool) (uid : String)
    (d d' : ProfileDraft) (resp : UpdateResponse) (prior : SaveState)
    (hok : validate u d = .ok d') (hbio : d.bio = "") :
    ((handleSaveChanges u (some uid) d resp prior).request).map UpdatePayload.newBio =
      some none := by
  have hd' : d' = { d with links := cleanLinks d.links } := validate_ok_eq u d d' hok
  unfold handleSaveChanges
  rw [hok]
  cases resp <;> simp [buildPayload, hd', hbio]

/-- C3 witness: the amended theorem applied to the Alice draft. -/
theorem c3_empty_bio_submitted_as_null_witness :
    dAlice.bio = "" ∧
    ((handleSaveChanges uVal (some "user-1") dAlice (.httpError "db down")
        ⟨none, none⟩).request).map UpdatePayload.newBio = some none :=
  ⟨rfl, c3_empty_bio_submitted_as_null uVal "user-1" dAlice
      { dAlice with links := [] } (.httpError "db down") ⟨none, none⟩ rfl rfl⟩

/-- C4: (1) every links entry whose value is the empty string is removed by
the cleaning step and so is absent before validation; (2) such entries never
trigger a URL-format failure: even when the empty string is not a valid URL
and an empty-valued entry is present, a draft whose remaining fields satisfy
every constraint validates successfully; (3) every remaining non-empty links
value that is not a syntactically valid URL makes `validate` fail, and when
the earlier constraints hold the reported error cites the invalid URL. -/
theorem c4_links_cleaning_and_url_failures (u : String → Bool) (d : ProfileDraft) :
    (∀ k v, (k, v) ∈ cleanLinks d.links → v ≠ "") ∧
    (u "" = false → (∃ k, (k, "") ∈ d.links) →
      3 ≤ d.name.length → d.name.length ≤ 15 → d.bio.length ≤ 200 →
      u d.background = true → 1 ≤ d.background.length →
      u d.avatar = true → 1 ≤ d.avatar.length →
      (∀ kv ∈ cleanLinks d.links, u kv.2 = true) →
      ∃ d', validate u d = .ok d') ∧
    (∀ k v, (k, v) ∈ d.links → v ≠ "" → u v = false →
      (∃ m, validate u d = .error m) ∧
      (3 ≤ d.name.length → d.name.length ≤ 15 → d.bio.length ≤ 200 →
        u d.background = true → 1 ≤ d.background.length →
        u d.avatar = true → 1 ≤ d.avatar.length →
        validate u d = .error linkUrlMessage)) := by
  refine ⟨?_, ?_, ?_⟩
  · intro k v h
    have := (List.mem_filter.mp h).2
    simpa using this
  · intro _ _ h1 h2 h3 h4 h5 h6 h7 h8
    exact ⟨_, validate_ok_of u d h1 h2 h3 h4 h5 h6 h7 h8⟩
  · intro k v hmem hne hbad
    have hmemc : (k, v) ∈ cleanLinks d.links :=
      List.mem_filter.mpr ⟨hmem, by simpa using hne⟩
    have hall : ¬ ((cleanLinks d.links).all (fun kv => u kv.2) = true) := by
      intro hallt
      have hv := List.all_eq_true.mp hallt (k, v) hmemc
      rw [hbad] at hv
      exact Bool.noConfusion hv
    constructor
    · cases hfv : firstViolation u d with
      | some m => exact ⟨m, (validate_error_iff u d m).mpr hfv⟩
      | none => exact absurd (firstViolation_none_inv u d hfv).2 hall
    · intro h1 h2 h3 h4 h5 h6 h7
      rw [validate_error_iff]
      unfold firstViolation
      have c1 : ¬ (d.name.length < 3 ∨ 15 < d.name.length) := by omega
      have c2 : ¬ d.name.length < 1 := by omega
      have c3 : ¬ 200 < d.bio.length := by omega
      have c4 : ¬ u d.background = false := by
        rw [h4]
        exact Bool.noConfusion
      have c5 : ¬ d.background.length < 1 := by omega
      have c6 : ¬ u d.avatar = false := by
        rw [h6]
        exact Bool.noConfusion
      have c7 : ¬ d.avatar.length < 1 := by omega
      rw [if_neg c1, if_neg c2, if_neg c3, if_neg c4, if_neg c5, if_neg c6,
        if_neg c7, if_neg hall]

/-- C4 witness: the empty website link of the Alice draft is cleaned away and
the draft validates; the non-URL github link of the bad-link draft makes
validation fail citing the invalid URL. -/
theorem c4_links_cleaning_and_url_failures_witness :
    cleanLinks dAlice.links = [] ∧
    (∃ d', validate uVal dAlice = .ok d') ∧
    validate uVal dBadLink = .error linkUrlMessage :=
  ⟨rfl,
   (c4_links_cleaning_and_url_failures uVal dAlice).2.1 rfl ⟨"website", by decide⟩
     (by decide) (by decide) (by decide) rfl (by decide) rfl (by decide)
     (by decide),
   ((c4_links_cleaning_and_url_failures uVal dBadLink).2.2 "github" "not a url"
       (by decide) (by decide) rfl).2
     (by decide) (by decide) (by decide) rfl (by decide) rfl (by decide)⟩

/-- C5: for the draft {name "Alice", empty bio, the two valid image URLs,
an empty website link}, validation succeeds, the cleaned links mapping is
empty, and the submitted payload's newBio field is null (`none`). -/
theorem c5_alice_end_to_end (u : String → Bool) (uid : String)
    (resp : UpdateResponse) (prior : SaveState)
    (ha : u "https://x.com/a.png" = true) (hb : u "https://x.com/b.png" = true) :
    validate u dAlice = .ok { dAlice with links := [] } ∧
    cleanLinks dAlice.links = [] ∧
    ((handleSaveChanges u (some uid) dAlice resp prior).request).map
        UpdatePayload.newBio = some none := by
  have hok : validate u dAlice = .ok { dAlice with links := cleanLinks dAlice.links } :=
    validate_ok_of u dAlice (by decide) (by decide) (by decide) ha (by decide)
      hb (by decide) (fun kv hkv => by simp [cleanLinks, dAlice] at hkv)
  refine ⟨hok, rfl, ?_⟩
  unfold handleSaveChanges
  rw [hok]
  cases resp <;> rfl

/-- C5 witness: the end-to-end run with the concrete URL oracle. -/
theorem c5_alice_end_to_end_witness :
    uVal "https://x.com/a.png" = true ∧
    ((handleSaveChanges uVal (some "user-1") dAlice (.ok "Profile updated")
        ⟨some "stale", some "stale error"⟩).request).map UpdatePayload.newBio =
      some none :=
  ⟨rfl, (c5_alice_end_to_end uVal "user-1" (.ok "Profile updated")
      ⟨some "stale", some "stale error"⟩ rfl rfl).2.2⟩

/-- C6 (counterexample): for a draft with a 201-character bio and an empty
name, `validate` fails, but with the name-length message, not the bio-length
message — the name checks are declared before the bio check, so "regardless
of the validity of the other fields" does not hold of the name field. -/
theorem c6_long_bio_bad_name_counterexample :
    200 < dLongBio.bio.length ∧
    validate uVal dLongBio = .error "Name must be between 3 and 15 characters long" ∧
    ("Name must be between 3 and 15 characters long" : String) ≠
      "Bio must be 200 characters or fewer" :=
  ⟨by decide, rfl, by decide⟩

/-- C6 (amended): for every draft whose bio has length greater than 200,
`validate` fails; and whenever the name satisfies its constraints, the
reported error is the bio-length FieldError regardless of the validity of
the fields declared after bio (background URL, avatar URL, links). -/
theorem c6_long_bio_fails (u : String → Bool) (d : ProfileDraft)
    (hbio : 200 < d.bio.length) :
    (∃ m, validate u d = .error m) ∧
    (3 ≤ d.name.length → d.name.length ≤ 15 →
      validate u d = .error bioLengthMessage) := by
  constructor
  · cases hfv : firstViolation u d with
    | some m => exact ⟨m, (validate_error_iff u d m).mpr hfv⟩
    | none => exact absurd (firstViolation_none_inv u d hfv).1 (by omega)
  · intro hn1 hn2
    rw [validate_error_iff]
    unfold firstViolation
    have c1 : ¬ (d.name.length < 3 ∨ 15 < d.name.length) := by omega
    have c2 : ¬ d.name.length < 1 := by omega
    rw [if_neg c1, if_neg c2, if_pos hbio]

/-- C6 witness: the amended theorem applied to a 201-character bio with a
valid name. -/
theorem c6_long_bio_fails_witness :
    200 < dLongBioGoodName.bio.length ∧
    validate uVal dLongBioGoodName = .error bioLengthMessage :=
  ⟨by decide,
   (c6_long_bio_fails uVal dLongBioGoodName (by decide)).2 (by decide) (by decide)⟩

/-- C7: for every draft whose name has length strictly less than 3 or
strictly greater than 15 while the other fields are valid, `validate` fails
with the name-length FieldError. -/
theorem c7_name_length_violation (u : String → Bool) (d : ProfileDraft)
    (hname : d.name.length < 3 ∨ 15 < d.name.length)
    (_hbio : d.bio.length ≤ 200)
    (_hbg : u d.background = true) (_hbgne : 1 ≤ d.background.length)
    (_hav : u d.avatar = true) (_havne : 1 ≤ d.avatar.length)
    (_hlinks : ∀ kv ∈ cleanLinks d.links, u kv.2 = true) :
    validate u d = .error nameLengthMessage := by
  rw [validate_error_iff]
  unfold firstViolation
  rw [if_pos hname]

/-- C7 witness: the "Al" end-to-end draft (name length 2) fails validation
with the name-length message. -/
theorem c7_name_length_violation_witness :
    dAl.name.length = 2 ∧ validate uVal dAl = .error nameLengthMessage :=
  ⟨rfl,
   c7_name_length_violation uVal dAl (Or.inl (by decide)) (by decide) rfl
     (by decide) rfl (by decide)
     (fun kv hkv => by simp [cleanLinks, dAl, dAlice] at hkv)⟩

/-- C8: when the save flow reaches the update endpoint and the endpoint
answers with a non-success HTTP status and a body carrying a message, the
displayed error is that server-supplied message prefixed with "Error: ", no
success message is shown, and the request was indeed issued. -/
theorem c8_http_error_display (u : String → Bool) (uid m : String)
    (d d' : ProfileDraft) (prior : SaveState)
    (hok : validate u d = .ok d') :
    (handleSaveChanges u (some uid) d (.httpError m) prior).state.error =
      some ("Error: " ++ m) ∧
    (handleSaveChanges u (some uid) d (.httpError m) prior).state.message = none ∧
    (handleSaveChanges u (some uid) d (.httpError m) prior).request =
      some (buildPayload uid d') := by
  unfold handleSaveChanges
  rw [hok]
  exact ⟨rfl, rfl, rfl⟩

/-- C8 witness: HTTP 500 with message "db error" on the Alice draft displays
"Error: db error" and no success message. -/
theorem c8_http_error_display_witness :
    (handleSaveChanges uVal (some "user-1") dAlice (.httpError "db error")
        ⟨none, none⟩).state.error = some "Error: db error" ∧
    (handleSaveChanges uVal (some "user-1") dAlice (.httpError "db error")
        ⟨none, none⟩).state.message = none := by
  have h := c8_http_error_display uVal "user-1" "db error" dAlice
      { dAlice with links := [] } ⟨none, none⟩ rfl
  exact ⟨h.1.trans (by decide), h.2.1⟩

/-- C9: every run of the save flow first clears the prior success message and
error state — the outcome is the same whatever display state the run starts
from — and at its end exactly one of the success message and the error is
set: a successful submission leaves the error null and every failed run
leaves the success message null. -/
theorem c9_clears_prior_and_reports_exactly_one (u : String → Bool)
    (userId : Option String) (d : ProfileDraft) (resp : UpdateResponse)
    (prior prior' : SaveState) :
    handleSaveChanges u userId d resp prior =
      handleSaveChanges u userId d resp prior' ∧
    (((handleSaveChanges u userId d resp prior).state.message.isSome = true ∧
        (handleSaveChanges u userId d resp prior).state.error = none) ∨
      ((handleSaveChanges u userId d resp prior).state.message = none ∧
        (handleSaveChanges u userId d resp prior).state.error.isSome = true)) := by
  cases userId with
  | none => exact ⟨rfl, Or.inr ⟨rfl, rfl⟩⟩
  | some uid =>
    cases hv : validate u d with
    | error m => simp [handleSaveChanges, hv]
    | ok cleaned =>
      cases resp with
      | ok msg => simp [handleSaveChanges, hv]
      | httpError msg => simp [handleSaveChanges, hv]
      | transportFailure => simp [handleSaveChanges, hv]

/-- C10: for every draft that fails schema validation, the save flow issues
no request to the update endpoint and sets no success message: the only
reported outcome is the FieldError message. -/
theorem c10_validation_failure_is_atomic (u : String → Bool) (uid m : String)
    (d : ProfileDraft) (resp : UpdateResponse) (prior : SaveState)
    (herr : validate u d = .error m) :
    (handleSaveChanges u (some uid) d resp prior).request = none ∧
    (handleSaveChanges u (some uid) d resp prior).state.message = none ∧
    (handleSaveChanges u (some uid) d resp prior).state.error = some m := by
  unfold handleSaveChanges
  rw [herr]
  exact ⟨rfl, rfl, rfl⟩

/-- C10 witness: the empty-name draft short-circuits before the endpoint even
when the endpoint would answer success. -/
theorem c10_validation_failure_is_atomic_witness :
    (handleSaveChanges uVal (some "user-1") dEmptyName (.ok "would succeed")
        ⟨none, none⟩).request = none ∧
    (handleSaveChanges uVal (some "user-1") dEmptyName (.ok "would succeed")
        ⟨none, none⟩).state.error = some nameLengthMessage :=
  have h := c10_validation_failure_is_atomic uVal "user-1" nameLengthMessage
      dEmptyName (.ok "would succeed") ⟨none, none⟩ rfl
  ⟨h.1, h.2.2⟩

end Zylo
